import Mathlib

/-!
# Basic authentication backend (`http/basic.go`)

A shallow embedding of `BasicAuthenticationBackend` and of its constructors.
Go strings are byte sequences, so they are embedded as lists of bytes; the
calls a handler makes to its collaborators are recorded in a trace.
-/

namespace Skydive

/-- One byte of a Go string. -/
abbrev Byte := Fin 256

/-- A Go `string`: an immutable sequence of bytes. -/
abbrev GoString := List Byte

/-- The byte with the given code, reduced modulo 256. -/
def toByte (n : Nat) : Byte := ⟨n % 256, Nat.mod_lt n (by decide)⟩

/-- The Go string written by an ASCII literal. -/
def str (s : String) : GoString := s.toList.map (fun c => toByte c.toNat)

/-! ## `encoding/base64`, `StdEncoding` -/

/-- Modelled from the spec: the alphabet of the standard base64 encoding
(Go constant `encodeStd` of `encoding/base64`, not under src/). -/
def encodeStd : GoString :=
  str "ABCDEFGHIJKLMNOPQRSTUVWXYZabcdefghijklmnopqrstuvwxyz0123456789+/"

/-- The padding character `=` of the standard encoding. -/
def StdPadding : Byte := toByte 61

/-- The character that encodes a six-bit value. -/
def encodeChar (n : Nat) : Byte := encodeStd.getD n StdPadding

/-- The six-bit value a character stands for, if it is in the alphabet. -/
def decodeChar (c : Byte) : Option Nat :=
  if encodeStd.indexOf c < 64 then some (encodeStd.indexOf c) else none

/-- Modelled from the spec: `base64.StdEncoding.EncodeToString` (Go standard
library, not under src/): three bytes become four characters, a last group of
one or two bytes is padded with `=`. -/
def EncodeToString : List Byte → GoString
  | [] => []
  | [a] => [encodeChar (a.val / 4), encodeChar (a.val % 4 * 16), StdPadding, StdPadding]
  | [a, b] =>
    [encodeChar (a.val / 4), encodeChar (a.val % 4 * 16 + b.val / 16),
     encodeChar (b.val % 16 * 4), StdPadding]
  | a :: b :: c :: rest =>
    encodeChar (a.val / 4) :: encodeChar (a.val % 4 * 16 + b.val / 16) ::
      encodeChar (b.val % 16 * 4 + c.val / 64) :: encodeChar (c.val % 64) ::
      EncodeToString rest

/-- Decoding of a string whose line breaks have been removed, four characters
at a time; padding is accepted in the last group only. -/
def decodeQuanta : GoString → Option (List Byte)
  | [] => some []
  | c0 :: c1 :: c2 :: c3 :: rest =>
    match decodeChar c0, decodeChar c1 with
    | some s0, some s1 =>
      if c2 = StdPadding then
        if c3 = StdPadding ∧ rest = [] then some [toByte (s0 * 4 + s1 / 16)] else none
      else
        match decodeChar c2 with
        | none => none
        | some s2 =>
          if c3 = StdPadding then
            if rest = [] then
              some [toByte (s0 * 4 + s1 / 16), toByte (s1 % 16 * 16 + s2 / 4)]
            else none
          else
            match decodeChar c3 with
            | none => none
            | some s3 =>
              (decodeQuanta rest).map (fun bs =>
                toByte (s0 * 4 + s1 / 16) :: toByte (s1 % 16 * 16 + s2 / 4) ::
                  toByte (s2 % 4 * 64 + s3) :: bs)
    | _, _ => none
  | _ => none

/-- Modelled from the spec: `base64.StdEncoding.DecodeString` (Go standard
library, not under src/): carriage returns and line feeds are ignored, any
other character outside the alphabet and any wrong padding is an error
(`none`). -/
def DecodeString (s : GoString) : Option (List Byte) :=
  decodeQuanta (s.filter (fun c => c ≠ toByte 13 ∧ c ≠ toByte 10))

/-! ## `net/http` requests and the recorded collaborator calls -/

/-- Go `http.Header`: the values stored under each canonical header key. -/
abbrev Header := GoString → List GoString

/-- The empty header map, `make(http.Header)`. -/
def Header.make : Header := fun _ => []

/-- Go `Header.Set`: the key now holds the single value `value`. -/
def Header.Set (h : Header) (key value : GoString) : Header :=
  fun k => if k = key then [value] else h k

/-- Go `Header.Get`: the first value stored under the key, or `""`. -/
def Header.Get (h : Header) (key : GoString) : GoString := (h key).headD []

/-- Go `http.Request`, with its header map and two of the fields that the
backend never touches. -/
structure Request where
  Header : Header
  Method : GoString
  URL : GoString

/-- Go `strings.SplitN(s, sep, 2)` for a one-byte separator: `none` when the
separator does not occur (the result slice has length 1), else the parts
before and after its first occurrence. -/
def SplitN2 (sep : Byte) : GoString → Option (GoString × GoString)
  | [] => none
  | c :: cs =>
    if c = sep then some ([], cs)
    else (SplitN2 sep cs).map (fun p => (c :: p.1, p.2))

/-- Go `auth.SecretProvider`: the stored secret of a user in a realm, `""`
when the user is absent. -/
abbrev SecretProvider := GoString → GoString → GoString

/-- The errors the backend returns. -/
inductive Error
  | ErrWrongCredentials
  | New (text : GoString)
  | Stat (path : GoString)
  deriving DecidableEq

/-- Go `auth.BasicAuth` as built by `auth.NewBasicAuthenticator`. -/
structure BasicAuth where
  Realm : GoString
  Secrets : SecretProvider

/-- Go `auth.NewBasicAuthenticator`. -/
def NewBasicAuthenticator (realm : GoString) (secrets : SecretProvider) : BasicAuth :=
  { Realm := realm, Secrets := secrets }

/-- Modelled from the spec: the validation check `CheckAuth` of the embedded
`*auth.BasicAuth` (package go-http-auth, not under src/). It reads the
`Authorization` header, wants the scheme `Basic`, decodes the token from
base64, splits it at its first colon into user and password, resolves the
user in the Secret Provider and verifies the password against the stored
secret with the scheme's comparison rule `compare` (`true` when the password
matches the secret). It answers the user name, or `""` when any step fails.
The steps are those of the library routine: `strings.SplitN(header, " ", 2)`
with the test `s[0] != "Basic"`, `base64.StdEncoding.DecodeString(s[1])`,
`strings.SplitN(pair, ":", 2)`, `a.Secrets(user, a.Realm)` with the test
`secret == ""`, and the comparison of secret and password.
The comparison rule is a parameter: no hash function is fixed here. -/
def BasicAuth.CheckAuth (compare : GoString → GoString → Bool) (a : BasicAuth)
    (r : Request) : GoString :=
  match SplitN2 (toByte 32) (r.Header.Get (str "Authorization")) with
  | none => []
  | some (scheme, token) =>
    if scheme ≠ str "Basic" then []
    else
      match DecodeString token with
      | none => []
      | some b =>
        match SplitN2 (toByte 58) b with
        | none => []
        | some (user, password) =>
          if a.Secrets user a.Realm = [] then []
          else if compare (a.Secrets user a.Realm) password then user
          else []

/-- A call made by the handler that `Wrap` returns, with the request as it is
at the time of the call. `wrapped` is the call of the wrapped handler that
`authCallWrapped` makes with the authenticated user name. -/
inductive Call
  | authenticateWithHeaders (r : Request)
  | CheckAuth (r : Request)
  | Unauthorized (r : Request)
  | wrapped (r : Request) (username : GoString)

/-- Whether the call is the call of the wrapped handler. -/
def Call.isWrapped : Call → Bool
  | .wrapped _ _ => true
  | _ => false

/-- Whether the call is the call of the unauthorized responder. -/
def Call.isUnauthorized : Call → Bool
  | .Unauthorized _ => true
  | _ => false

/-! ## `http/basic.go` -/

/-- The constant `basicAuthRealm`. -/
def basicAuthRealm : GoString := str "Skydive Authentication"

/-- The struct `BasicAuthenticationBackend`. -/
structure BasicAuthenticationBackend where
  BasicAuth : BasicAuth
  name : GoString
  role : GoString

/-- Method `Name`. -/
def BasicAuthenticationBackend.Name (b : BasicAuthenticationBackend) : GoString := b.name

/-- Method `DefaultUserRole`. -/
def BasicAuthenticationBackend.DefaultUserRole (b : BasicAuthenticationBackend)
    (_user : GoString) : GoString := b.role

/-- Method `SetDefaultUserRole`: the backend after the assignment. -/
def BasicAuthenticationBackend.SetDefaultUserRole (b : BasicAuthenticationBackend)
    (role : GoString) : BasicAuthenticationBackend := { b with role := role }

/-- The synthetic request that `Authenticate` builds: an otherwise zero
request whose only header is `Authorization: Basic <creds>`. -/
def syntheticRequest (creds : GoString) : Request :=
  { Header := Header.make.Set (str "Authorization") (str "Basic " ++ creds),
    Method := [], URL := [] }

/-- Method `Authenticate`: the returned token and error (`none` is `nil`). -/
def BasicAuthenticationBackend.Authenticate (compare : GoString → GoString → Bool)
    (b : BasicAuthenticationBackend) (username password : GoString) :
    GoString × Option Error :=
  let request := syntheticRequest (EncodeToString (username ++ str ":" ++ password))
  let creds := EncodeToString (username ++ str ":" ++ password)
  let username := b.BasicAuth.CheckAuth compare request
  if username = [] then ([], some Error.ErrWrongCredentials)
  else (creds, none)

/-- The request after `r.Header.Set("Authorization", "Basic "+token)`. -/
def Request.setAuthorization (r : Request) (token : GoString) : Request :=
  { r with Header := r.Header.Set (str "Authorization") (str "Basic " ++ token) }

/-- Method `Wrap`: one run of the returned handler on the request `r`, as the
list of calls it makes and the request as it is when the handler returns.
The header credential extractor `authenticateWithHeaders` is not under src/
and is a parameter: it answers a token and an error, `none` for `nil`. -/
def BasicAuthenticationBackend.Wrap (compare : GoString → GoString → Bool)
    (b : BasicAuthenticationBackend)
    (authenticateWithHeaders : BasicAuthenticationBackend → Request → GoString × Option Error)
    (r : Request) : List Call × Request :=
  match authenticateWithHeaders b r with
  | (_, some _) => ([Call.authenticateWithHeaders r, Call.Unauthorized r], r)
  | (token, none) =>
    let r1 : Request := r.setAuthorization token
    let username := b.BasicAuth.CheckAuth compare r1
    if username = [] then
      ([Call.authenticateWithHeaders r, Call.CheckAuth r1, Call.Unauthorized r1], r1)
    else
      ([Call.authenticateWithHeaders r, Call.CheckAuth r1, Call.wrapped r1 username], r1)

/-- Function `NewBasicAuthenticationBackend`: the returned backend (`none` is
the nil pointer) and error. -/
def NewBasicAuthenticationBackend (name : GoString) (provider : SecretProvider)
    (role : GoString) : Option BasicAuthenticationBackend × Option Error :=
  (some { BasicAuth := NewBasicAuthenticator basicAuthRealm provider,
          name := name, role := role }, none)

/-- What `NewBasicAuthenticationBackendFromConfig` reads from outside
`basic.go`: the configuration (`config.GetString`,
`config.GetStringMapString`, where `none` is the nil map), the file system
(`os.Stat`, answering the error, `none` for `nil`), the two provider
constructors and the constant `defaultUserRole`. -/
structure Env where
  GetString : GoString → GoString
  GetStringMapString : GoString → Option (List (GoString × GoString))
  Stat : GoString → Option Error
  HtpasswdFileProvider : GoString → SecretProvider
  NewHtpasswdMapProvider : List (GoString × GoString) → SecretProvider
  defaultUserRole : GoString

/-- The error of the last branch of `NewBasicAuthenticationBackendFromConfig`. -/
def errNoProvider : Error :=
  Error.New (str "No htpassword provider set, you set either file or inline sections")

/-- Function `NewBasicAuthenticationBackendFromConfig`. -/
def NewBasicAuthenticationBackendFromConfig (env : Env) (name : GoString) :
    Option BasicAuthenticationBackend × Option Error :=
  let role := env.GetString (str "auth." ++ name ++ str ".role")
  let role := if role = [] then env.defaultUserRole else role
  let file := env.GetString (str "auth." ++ name ++ str ".file")
  if file ≠ [] then
    match env.Stat file with
    | some err => (none, some err)
    | none => NewBasicAuthenticationBackend name (env.HtpasswdFileProvider file) role
  else
    match env.GetStringMapString (str "auth." ++ name ++ str ".users") with
    | some users =>
      if users.length > 0 then
        NewBasicAuthenticationBackend name (env.NewHtpasswdMapProvider users) role
      else (none, some errNoProvider)
    | none => (none, some errNoProvider)

/-! ## Example inputs -/

/-- A comparison rule for the examples: the secret of password `p` is
`plain:p`. -/
def plainCompare (secret password : GoString) : Bool :=
  decide (secret = str "plain:" ++ password)

/-- A Secret Provider over a list of user and secret records; the realm is
not looked at. -/
def listProvider (users : List (GoString × GoString)) : SecretProvider :=
  fun user _ => (users.lookup user).getD []

/-- The backend named `basic` with role `admin` over the given records. -/
def backendOf (users : List (String × String)) : BasicAuthenticationBackend :=
  { BasicAuth := NewBasicAuthenticator basicAuthRealm
      (listProvider (users.map (fun p => (str p.1, str p.2)))),
    name := str "basic", role := str "admin" }

/-- The backend of the scenario of the specification: `alice` with the secret
of the password `wonderland`. -/
def aliceBackend : BasicAuthenticationBackend := backendOf [("alice", "plain:wonderland")]

/-- A backend that knows the user `a:b` with password `c` and the user with
the empty name with password `pw`. -/
def colonBackend : BasicAuthenticationBackend :=
  backendOf [("a:b", "plain:c"), ("", "plain:pw")]

/-- A backend that knows the user `a` with password `b:c` and nobody else. -/
def shortUserBackend : BasicAuthenticationBackend := backendOf [("a", "plain:b:c")]

/-- A request with the given method whose only header is `Cookie`. -/
def cookieRequest (method : String) : Request :=
  { Header := Header.make.Set (str "Cookie") (str "authtok=x"),
    Method := str method, URL := str "/api" }

/-- An extractor that always answers the given token without error. -/
def tokenExtractor (token : GoString) :
    BasicAuthenticationBackend → Request → GoString × Option Error :=
  fun _ _ => (token, none)

/-- An extractor that always fails. -/
def failingExtractor : BasicAuthenticationBackend → Request → GoString × Option Error :=
  fun _ _ => ([], some Error.ErrWrongCredentials)

/-- An environment for the backend `basic`: the given role, file and inline
users; the only path that exists is `/etc/htpasswd`. -/
def exampleEnv (role file : String) (users : Option (List (GoString × GoString))) : Env :=
  { GetString := fun key =>
      if key = str "auth.basic.role" then str role
      else if key = str "auth.basic.file" then str file
      else [],
    GetStringMapString := fun key => if key = str "auth.basic.users" then users else none,
    Stat := fun path => if path = str "/etc/htpasswd" then none else some (Error.Stat path),
    HtpasswdFileProvider := fun _ => listProvider [(str "alice", str "plain:wonderland")],
    NewHtpasswdMapProvider := listProvider,
    defaultUserRole := str "admin" }

/-- The backend that the factory builds for `basic` from the file
`/etc/htpasswd` of the example environment, with the given role. -/
def fileBackend (role : String) : BasicAuthenticationBackend :=
  { BasicAuth := NewBasicAuthenticator basicAuthRealm
      (listProvider [(str "alice", str "plain:wonderland")]),
    name := str "basic", role := str role }

/-- An inline `users` mapping with the single user `bob`. -/
def bobUsers : List (GoString × GoString) := [(str "bob", str "plain:builder")]

/-! ## Lemmas on the base64 codec -/

theorem decodeChar_encodeChar (n : Nat) (h : n < 64) :
    decodeChar (encodeChar n) = some n := by
  interval_cases n <;> decide

theorem encodeChar_ne_padding (n : Nat) (h : n < 64) : encodeChar n ≠ StdPadding := by
  interval_cases n <;> decide

theorem encodeChar_ne_cr (n : Nat) (h : n < 64) : encodeChar n ≠ toByte 13 := by
  interval_cases n <;> decide

theorem encodeChar_ne_lf (n : Nat) (h : n < 64) : encodeChar n ≠ toByte 10 := by
  interval_cases n <;> decide

theorem toByte_val (b : Byte) : toByte b.val = b := by
  apply Fin.ext
  simp [toByte, Nat.mod_eq_of_lt b.isLt]

theorem toByte_eq (n : Nat) (b : Byte) (h : n = b.val) : toByte n = b := by
  subst h
  exact toByte_val b

theorem decodeQuanta_EncodeToString (bs : List Byte) :
    decodeQuanta (EncodeToString bs) = some bs := by
  induction bs using EncodeToString.induct with
  | case1 => simp [EncodeToString, decodeQuanta]
  | case2 a =>
    have ha := a.isLt
    have h0 : a.val / 4 < 64 := by omega
    have h1 : a.val % 4 * 16 < 64 := by omega
    simp [EncodeToString, decodeQuanta, decodeChar_encodeChar _ h0,
      decodeChar_encodeChar _ h1]
    exact toByte_eq _ _ (by omega)
  | case3 a b =>
    have ha := a.isLt
    have hb := b.isLt
    have h0 : a.val / 4 < 64 := by omega
    have h1 : a.val % 4 * 16 + b.val / 16 < 64 := by omega
    have h2 : b.val % 16 * 4 < 64 := by omega
    simp [EncodeToString, decodeQuanta, decodeChar_encodeChar _ h0,
      decodeChar_encodeChar _ h1, decodeChar_encodeChar _ h2,
      encodeChar_ne_padding _ h2]
    exact ⟨toByte_eq _ _ (by omega), toByte_eq _ _ (by omega)⟩
  | case4 a b c rest ih =>
    have ha := a.isLt
    have hb := b.isLt
    have hc := c.isLt
    have h0 : a.val / 4 < 64 := by omega
    have h1 : a.val % 4 * 16 + b.val / 16 < 64 := by omega
    have h2 : b.val % 16 * 4 + c.val / 64 < 64 := by omega
    have h3 : c.val % 64 < 64 := by omega
    simp [EncodeToString, decodeQuanta, decodeChar_encodeChar _ h0,
      decodeChar_encodeChar _ h1, decodeChar_encodeChar _ h2, decodeChar_encodeChar _ h3,
      encodeChar_ne_padding _ h2, encodeChar_ne_padding _ h3, ih]
    exact ⟨toByte_eq _ _ (by omega), toByte_eq _ _ (by omega), toByte_eq _ _ (by omega)⟩

theorem filter_EncodeToString (bs : List Byte) :
    (EncodeToString bs).filter (fun c => c ≠ toByte 13 ∧ c ≠ toByte 10)
      = EncodeToString bs := by
  have hp13 : StdPadding ≠ toByte 13 := by decide
  have hp10 : StdPadding ≠ toByte 10 := by decide
  induction bs using EncodeToString.induct with
  | case1 => simp [EncodeToString]
  | case2 a =>
    have ha := a.isLt
    have h0 : a.val / 4 < 64 := by omega
    have h1 : a.val % 4 * 16 < 64 := by omega
    simp [EncodeToString, encodeChar_ne_cr _ h0, encodeChar_ne_lf _ h0,
      encodeChar_ne_cr _ h1, encodeChar_ne_lf _ h1, hp13, hp10]
  | case3 a b =>
    have ha := a.isLt
    have hb := b.isLt
    have h0 : a.val / 4 < 64 := by omega
    have h1 : a.val % 4 * 16 + b.val / 16 < 64 := by omega
    have h2 : b.val % 16 * 4 < 64 := by omega
    simp [EncodeToString, encodeChar_ne_cr _ h0, encodeChar_ne_lf _ h0,
      encodeChar_ne_cr _ h1, encodeChar_ne_lf _ h1, encodeChar_ne_cr _ h2,
      encodeChar_ne_lf _ h2, hp13, hp10]
  | case4 a b c rest ih =>
    have ha := a.isLt
    have hb := b.isLt
    have hc := c.isLt
    have h0 : a.val / 4 < 64 := by omega
    have h1 : a.val % 4 * 16 + b.val / 16 < 64 := by omega
    have h2 : b.val % 16 * 4 + c.val / 64 < 64 := by omega
    have h3 : c.val % 64 < 64 := by omega
    simpa [EncodeToString, encodeChar_ne_cr _ h0, encodeChar_ne_lf _ h0,
      encodeChar_ne_cr _ h1, encodeChar_ne_lf _ h1, encodeChar_ne_cr _ h2,
      encodeChar_ne_lf _ h2, encodeChar_ne_cr _ h3, encodeChar_ne_lf _ h3] using ih

/-- Decoding inverts encoding: `DecodeString (EncodeToString bs)` is `bs`. -/
theorem DecodeString_EncodeToString (bs : List Byte) :
    DecodeString (EncodeToString bs) = some bs := by
  unfold DecodeString
  rw [filter_EncodeToString, decodeQuanta_EncodeToString]

/-! ## Lemmas on the validation check -/

theorem SplitN2_append (sep : Byte) (u p : GoString) (h : sep ∉ u) :
    SplitN2 sep (u ++ sep :: p) = some (u, p) := by
  induction u with
  | nil => simp [SplitN2]
  | cons c cs ih =>
    have hc : c ≠ sep := fun e => h (by simp [e])
    have hcs : sep ∉ cs := fun e => h (by simp [e])
    simp [SplitN2, hc, ih hcs]

theorem SplitN2_none (sep : Byte) (s : GoString) (h : sep ∉ s) : SplitN2 sep s = none := by
  induction s with
  | nil => simp [SplitN2]
  | cons c cs ih =>
    have hc : c ≠ sep := fun e => h (by simp [e])
    have hcs : sep ∉ cs := fun e => h (by simp [e])
    simp [SplitN2, hc, ih hcs]

theorem SplitN2_Basic (t : GoString) :
    SplitN2 (toByte 32) (str "Basic " ++ t) = some (str "Basic", t) :=
  SplitN2_append (toByte 32) (str "Basic") t (by decide)

theorem Header_Get_Set (h : Header) (key value : GoString) :
    (h.Set key value).Get key = value := by
  simp [Header.Get, Header.Set]

/-- The check reads nothing of the request but its `Authorization` header. -/
theorem CheckAuth_congr (compare : GoString → GoString → Bool) (a : BasicAuth)
    (r r1 : Request)
    (h : r.Header.Get (str "Authorization") = r1.Header.Get (str "Authorization")) :
    a.CheckAuth compare r = a.CheckAuth compare r1 := by
  unfold BasicAuth.CheckAuth
  rw [h]

/-- The check on a request that carries the token of a pair whose user name
has no colon: the user is looked up and the password compared. -/
theorem CheckAuth_pair (compare : GoString → GoString → Bool) (a : BasicAuth)
    (r : Request) (u p : GoString) (hu : toByte 58 ∉ u)
    (h : r.Header.Get (str "Authorization")
      = str "Basic " ++ EncodeToString (u ++ str ":" ++ p)) :
    a.CheckAuth compare r =
      if a.Secrets u a.Realm = [] then []
      else if compare (a.Secrets u a.Realm) p then u else [] := by
  have hs : SplitN2 (toByte 58) (u ++ str ":" ++ p) = some (u, p) := by
    have e : u ++ str ":" ++ p = u ++ toByte 58 :: p := by
      simp [str, List.append_assoc]
    rw [e]
    exact SplitN2_append _ _ _ hu
  unfold BasicAuth.CheckAuth
  rw [h, SplitN2_Basic]
  simp only [DecodeString_EncodeToString, hs]
  simp

theorem syntheticRequest_Get (creds : GoString) :
    (syntheticRequest creds).Header.Get (str "Authorization") = str "Basic " ++ creds := by
  simp [syntheticRequest, Header_Get_Set]

theorem setAuthorization_Get (r : Request) (token : GoString) :
    (r.setAuthorization token).Header.Get (str "Authorization") = str "Basic " ++ token := by
  simp [Request.setAuthorization, Header_Get_Set]

/-- The check gives the same answer on the request that `Authenticate` builds
for a token and on any request in which `Wrap` has injected that token. -/
theorem CheckAuth_setAuthorization (compare : GoString → GoString → Bool) (a : BasicAuth)
    (r : Request) (token : GoString) :
    a.CheckAuth compare (r.setAuthorization token)
      = a.CheckAuth compare (syntheticRequest token) :=
  CheckAuth_congr compare a _ _
    ((setAuthorization_Get r token).trans (syntheticRequest_Get token).symm)

theorem Authenticate_cases (compare : GoString → GoString → Bool)
    (b : BasicAuthenticationBackend) (u p : GoString) :
    (b.BasicAuth.CheckAuth compare (syntheticRequest (EncodeToString (u ++ str ":" ++ p))) = [] ∧
        b.Authenticate compare u p = ([], some Error.ErrWrongCredentials)) ∨
      (b.BasicAuth.CheckAuth compare (syntheticRequest (EncodeToString (u ++ str ":" ++ p))) ≠ [] ∧
        b.Authenticate compare u p = (EncodeToString (u ++ str ":" ++ p), none)) := by
  unfold BasicAuthenticationBackend.Authenticate
  by_cases h : b.BasicAuth.CheckAuth compare
      (syntheticRequest (EncodeToString (u ++ str ":" ++ p))) = []
  · exact Or.inl ⟨h, by simp only [h, if_true]⟩
  · exact Or.inr ⟨h, by simp only [h, if_false]⟩

/-! ## The claims -/

/-- C1, as stated, fails on two inputs: the user `a:b` is present and `c` is
its password, yet `Authenticate` answers `WrongCredentials`; likewise the
user with the empty name and its password `pw`. -/
theorem Authenticate_rejects_present_correct :
    (colonBackend.BasicAuth.Secrets (str "a:b") colonBackend.BasicAuth.Realm ≠ [] ∧
      plainCompare (colonBackend.BasicAuth.Secrets (str "a:b") colonBackend.BasicAuth.Realm)
        (str "c") = true ∧
      colonBackend.Authenticate plainCompare (str "a:b") (str "c")
        = ([], some Error.ErrWrongCredentials)) ∧
    (colonBackend.BasicAuth.Secrets [] colonBackend.BasicAuth.Realm ≠ [] ∧
      plainCompare (colonBackend.BasicAuth.Secrets [] colonBackend.BasicAuth.Realm)
        (str "pw") = true ∧
      colonBackend.Authenticate plainCompare [] (str "pw")
        = ([], some Error.ErrWrongCredentials)) := by
  decide

/-- C1, amended: for a user name that is not empty and has no colon, that is
present in the Secret Provider and whose password is correct for the stored
secret, `Authenticate` returns the base64 encoding of `username:password`
and a nil error. -/
theorem Authenticate_present_correct (compare : GoString → GoString → Bool)
    (b : BasicAuthenticationBackend) (username password : GoString)
    (hne : username ≠ []) (hcolon : toByte 58 ∉ username)
    (hpresent : b.BasicAuth.Secrets username b.BasicAuth.Realm ≠ [])
    (hcorrect : compare (b.BasicAuth.Secrets username b.BasicAuth.Realm) password = true) :
    b.Authenticate compare username password
      = (EncodeToString (username ++ str ":" ++ password), none) := by
  unfold BasicAuthenticationBackend.Authenticate
  simp only [CheckAuth_pair compare b.BasicAuth _ username password hcolon
    (syntheticRequest_Get _)]
  simp [hpresent, hcorrect, hne]

/-- C1, amended, on the scenario of the specification: `alice` with
`wonderland` gets the token `YWxpY2U6d29uZGVybGFuZA==`. -/
theorem Authenticate_present_correct_witness :
    aliceBackend.Authenticate plainCompare (str "alice") (str "wonderland")
        = (EncodeToString (str "alice" ++ str ":" ++ str "wonderland"), none) ∧
      EncodeToString (str "alice" ++ str ":" ++ str "wonderland")
        = str "YWxpY2U6d29uZGVybGFuZA==" :=
  ⟨Authenticate_present_correct plainCompare aliceBackend (str "alice") (str "wonderland")
    (by decide) (by decide) (by decide) (by decide), by decide⟩

/-- C2, as stated, fails: the user `a:b` is absent from the Secret Provider,
yet `Authenticate` of `a:b` with password `c` returns a token and a nil
error, because the pair reads as user `a` with password `b:c`. -/
theorem Authenticate_accepts_absent :
    shortUserBackend.BasicAuth.Secrets (str "a:b") shortUserBackend.BasicAuth.Realm = [] ∧
      shortUserBackend.Authenticate plainCompare (str "a:b") (str "c")
        = (str "YTpiOmM=", none) := by
  decide

/-- C2, amended: for a user name without a colon that is absent from the
Secret Provider and every password, `Authenticate` returns the empty token
and `WrongCredentials`. -/
theorem Authenticate_absent (compare : GoString → GoString → Bool)
    (b : BasicAuthenticationBackend) (username password : GoString)
    (hcolon : toByte 58 ∉ username)
    (habsent : b.BasicAuth.Secrets username b.BasicAuth.Realm = []) :
    b.Authenticate compare username password = ([], some Error.ErrWrongCredentials) := by
  unfold BasicAuthenticationBackend.Authenticate
  simp only [CheckAuth_pair compare b.BasicAuth _ username password hcolon
    (syntheticRequest_Get _)]
  simp [habsent]

/-- C2, amended, on the scenario of the specification: `bob` is absent. -/
theorem Authenticate_absent_witness :
    aliceBackend.Authenticate plainCompare (str "bob") (str "anything")
      = ([], some Error.ErrWrongCredentials) :=
  Authenticate_absent plainCompare aliceBackend (str "bob") (str "anything")
    (by decide) (by decide)

/-- C3: each run of the handler returned by `Wrap` calls exactly one of the
wrapped handler and the unauthorized responder, exactly once: the wrapped
handler when the extraction succeeds and the validation check on the request
with the re-injected header yields a non-empty user name, the unauthorized
responder otherwise; nothing follows the call of the unauthorized responder. -/
theorem Wrap_calls_exactly_one (compare : GoString → GoString → Bool)
    (b : BasicAuthenticationBackend)
    (ext : BasicAuthenticationBackend → Request → GoString × Option Error) (r : Request) :
    ((b.Wrap compare ext r).1.countP Call.isWrapped
        = if (ext b r).2 = none ∧ b.BasicAuth.CheckAuth compare
            (r.setAuthorization (ext b r).1) ≠ [] then 1 else 0) ∧
      ((b.Wrap compare ext r).1.countP Call.isUnauthorized
        = if (ext b r).2 = none ∧ b.BasicAuth.CheckAuth compare
            (r.setAuthorization (ext b r).1) ≠ [] then 0 else 1) ∧
      (((b.Wrap compare ext r).1.dropWhile (fun c => !c.isUnauthorized)).length ≤ 1) := by
  unfold BasicAuthenticationBackend.Wrap
  rcases hx : ext b r with ⟨token, err⟩
  cases err with
  | some e => simp [Call.isWrapped, Call.isUnauthorized]
  | none =>
    by_cases hu : b.BasicAuth.CheckAuth compare (r.setAuthorization token) = []
    · simp [hu, Call.isWrapped, Call.isUnauthorized]
    · simp [hu, Call.isWrapped, Call.isUnauthorized]

/-- C4: with an empty `file` and a nil or empty `users` mapping the factory
returns no backend and the error of its last branch (no provider configured);
with a non-empty `file` for which `os.Stat` reports an error, as it does for a
path that does not exist, it returns no backend and that error. -/
theorem FromConfig_fails (env : Env) (name : GoString)
    (h : (env.GetString (str "auth." ++ name ++ str ".file") = [] ∧
          (env.GetStringMapString (str "auth." ++ name ++ str ".users") = none ∨
           env.GetStringMapString (str "auth." ++ name ++ str ".users") = some [])) ∨
        (env.GetString (str "auth." ++ name ++ str ".file") ≠ [] ∧
          env.Stat (env.GetString (str "auth." ++ name ++ str ".file")) ≠ none)) :
    (NewBasicAuthenticationBackendFromConfig env name).1 = none ∧
      (NewBasicAuthenticationBackendFromConfig env name).2
        = if env.GetString (str "auth." ++ name ++ str ".file") = [] then some errNoProvider
          else env.Stat (env.GetString (str "auth." ++ name ++ str ".file")) := by
  unfold NewBasicAuthenticationBackendFromConfig
  generalize env.GetString (str "auth." ++ name ++ str ".file") = file at h
  generalize env.GetStringMapString (str "auth." ++ name ++ str ".users") = users at h
  rcases h with ⟨hf, hu | hu⟩ | ⟨hf, hs⟩
  · simp [hf, hu]
  · simp [hf, hu]
  · cases hst : env.Stat file with
    | none => exact absurd hst hs
    | some e => simp [hf, hst]

/-- C4 on three configurations of the backend `basic`: nothing configured, an
empty `users` mapping, and the file `/missing` that does not exist. -/
theorem FromConfig_fails_witness :
    (NewBasicAuthenticationBackendFromConfig (exampleEnv "" "" none) (str "basic")
        = (none, some errNoProvider)) ∧
      (NewBasicAuthenticationBackendFromConfig (exampleEnv "" "" (some [])) (str "basic")
        = (none, some errNoProvider)) ∧
      (NewBasicAuthenticationBackendFromConfig (exampleEnv "" "/missing" none) (str "basic")
        = (none, some (Error.Stat (str "/missing")))) := by
  have h1 := FromConfig_fails (exampleEnv "" "" none) (str "basic")
    (Or.inl ⟨by decide, Or.inl (by decide)⟩)
  have h2 := FromConfig_fails (exampleEnv "" "" (some [])) (str "basic")
    (Or.inl ⟨by decide, Or.inr (by decide)⟩)
  have h3 := FromConfig_fails (exampleEnv "" "/missing" none) (str "basic")
    (Or.inr ⟨by decide, by decide⟩)
  refine ⟨Prod.ext h1.1 (h1.2.trans (by decide)), Prod.ext h2.1 (h2.2.trans (by decide)),
    Prod.ext h3.1 (h3.2.trans (by decide))⟩

/-- C5: when `file` is not empty the outcome is that of the file (the
`os.Stat` error, or a backend over the file provider) and is the same
whatever the inline `users` mapping and its provider are; the inline mapping
is the provider when `file` is empty and the mapping is not; with `file`
empty and the mapping nil or empty there is no provider. -/
theorem FromConfig_precedence (env : Env) (name : GoString)
    (users1 : GoString → Option (List (GoString × GoString)))
    (provider1 : List (GoString × GoString) → SecretProvider) :
    (env.GetString (str "auth." ++ name ++ str ".file") ≠ [] →
      NewBasicAuthenticationBackendFromConfig
          { env with GetStringMapString := users1, NewHtpasswdMapProvider := provider1 } name
        = NewBasicAuthenticationBackendFromConfig env name ∧
      NewBasicAuthenticationBackendFromConfig env name
        = match env.Stat (env.GetString (str "auth." ++ name ++ str ".file")) with
          | some err => (none, some err)
          | none =>
            NewBasicAuthenticationBackend name
              (env.HtpasswdFileProvider (env.GetString (str "auth." ++ name ++ str ".file")))
              (if env.GetString (str "auth." ++ name ++ str ".role") = []
                then env.defaultUserRole
                else env.GetString (str "auth." ++ name ++ str ".role"))) ∧
    (env.GetString (str "auth." ++ name ++ str ".file") = [] →
      ∀ users, env.GetStringMapString (str "auth." ++ name ++ str ".users") = some users →
        users ≠ [] →
        NewBasicAuthenticationBackendFromConfig env name
          = NewBasicAuthenticationBackend name (env.NewHtpasswdMapProvider users)
              (if env.GetString (str "auth." ++ name ++ str ".role") = []
                then env.defaultUserRole
                else env.GetString (str "auth." ++ name ++ str ".role"))) ∧
    (env.GetString (str "auth." ++ name ++ str ".file") = [] →
      (env.GetStringMapString (str "auth." ++ name ++ str ".users") = none ∨
        env.GetStringMapString (str "auth." ++ name ++ str ".users") = some []) →
      NewBasicAuthenticationBackendFromConfig env name = (none, some errNoProvider)) := by
  unfold NewBasicAuthenticationBackendFromConfig
  generalize env.GetString (str "auth." ++ name ++ str ".file") = file
  generalize env.GetStringMapString (str "auth." ++ name ++ str ".users") = users0
  refine ⟨fun hf => ?_, fun hf users hu hne => ?_, fun hf hu => ?_⟩
  · simp only [hf, ne_eq, not_false_eq_true, if_true]
    exact ⟨trivial, trivial⟩
  · subst hu
    have hl : users.length > 0 := List.length_pos.mpr hne
    simp [hf, hl]
  · rcases hu with hu | hu <;> simp [hf, hu]

/-- C5 on the backend `basic` with the inline user `bob` configured: with the
missing file `/missing` the factory fails and does not fall back on the
mapping; with the file `/etc/htpasswd` the provider is the file's (it knows
`alice`, not `bob`); with no file the provider is the mapping's. -/
theorem FromConfig_precedence_witness :
    (NewBasicAuthenticationBackendFromConfig (exampleEnv "" "/missing" (some bobUsers))
        (str "basic")).2 = some (Error.Stat (str "/missing")) ∧
      (NewBasicAuthenticationBackendFromConfig (exampleEnv "" "/etc/htpasswd" (some bobUsers))
        (str "basic")).1.map (fun b =>
          (b.BasicAuth.Secrets (str "alice") b.BasicAuth.Realm,
            b.BasicAuth.Secrets (str "bob") b.BasicAuth.Realm))
        = some (str "plain:wonderland", []) ∧
      (NewBasicAuthenticationBackendFromConfig (exampleEnv "" "" (some bobUsers))
        (str "basic")).1.map (fun b =>
          (b.BasicAuth.Secrets (str "alice") b.BasicAuth.Realm,
            b.BasicAuth.Secrets (str "bob") b.BasicAuth.Realm))
        = some ([], str "plain:builder") := by
  have h1 := ((FromConfig_precedence (exampleEnv "" "/missing" (some bobUsers)) (str "basic")
    (fun _ => none) listProvider).1 (by decide)).2
  have h2 := ((FromConfig_precedence (exampleEnv "" "/etc/htpasswd" (some bobUsers))
    (str "basic") (fun _ => none) listProvider).1 (by decide)).2
  have h3 := (FromConfig_precedence (exampleEnv "" "" (some bobUsers)) (str "basic")
    (fun _ => none) listProvider).2.1 (by decide) bobUsers (by decide) (by decide)
  rw [h1, h2, h3]
  decide

/-- C6: a backend that the factory returns for `name` has that name, and its
default role, for every user, is the configured `auth.<name>.role` when that
is not empty and `defaultUserRole` otherwise. -/
theorem FromConfig_name_role (env : Env) (name : GoString) (b : BasicAuthenticationBackend)
    (h : (NewBasicAuthenticationBackendFromConfig env name).1 = some b) :
    b.Name = name ∧
      ∀ user, b.DefaultUserRole user
        = if env.GetString (str "auth." ++ name ++ str ".role") = [] then env.defaultUserRole
          else env.GetString (str "auth." ++ name ++ str ".role") := by
  unfold NewBasicAuthenticationBackendFromConfig at h
  generalize env.GetString (str "auth." ++ name ++ str ".file") = file at h
  generalize env.GetStringMapString (str "auth." ++ name ++ str ".users") = users at h
  by_cases hf : file = []
  · cases users with
    | none => simp [hf] at h
    | some us =>
      by_cases hl : us.length > 0
      · simp only [hf, ne_eq, not_true_eq_false, if_false, hl, if_true,
          NewBasicAuthenticationBackend, Option.some.injEq] at h
        subst h
        exact ⟨rfl, fun _ => rfl⟩
      · simp [hf, hl] at h
  · cases hst : env.Stat file with
    | some e => simp [hf, hst] at h
    | none =>
      simp only [hf, ne_eq, not_false_eq_true, if_true, hst,
        NewBasicAuthenticationBackend, Option.some.injEq] at h
      subst h
      exact ⟨rfl, fun _ => rfl⟩

/-- C6 on the backend `basic` built from `/etc/htpasswd`: with the role
`viewer` configured the default role is `viewer`, with no role configured it
is the system-wide `admin`. -/
theorem FromConfig_name_role_witness :
    ((fileBackend "viewer").Name = str "basic" ∧
        (fileBackend "viewer").DefaultUserRole (str "alice") = str "viewer") ∧
      ((fileBackend "admin").Name = str "basic" ∧
        (fileBackend "admin").DefaultUserRole (str "alice") = str "admin") :=
  ⟨⟨(FromConfig_name_role (exampleEnv "viewer" "/etc/htpasswd" none) (str "basic")
        (fileBackend "viewer") rfl).1,
      ((FromConfig_name_role (exampleEnv "viewer" "/etc/htpasswd" none) (str "basic")
        (fileBackend "viewer") rfl).2 (str "alice")).trans (by decide)⟩,
    ⟨(FromConfig_name_role (exampleEnv "" "/etc/htpasswd" none) (str "basic")
        (fileBackend "admin") rfl).1,
      ((FromConfig_name_role (exampleEnv "" "/etc/htpasswd" none) (str "basic")
        (fileBackend "admin") rfl).2 (str "alice")).trans (by decide)⟩⟩

/-- C7: after `SetDefaultUserRole r` the default role is `r` for every user,
the name and the authenticator are those of before, and the value that
`DefaultUserRole` returned before the change is still the old role. -/
theorem SetDefaultUserRole_frame (b : BasicAuthenticationBackend) (r u u0 : GoString) :
    (b.SetDefaultUserRole r).DefaultUserRole u = r ∧
      (b.SetDefaultUserRole r).Name = b.Name ∧
      (b.SetDefaultUserRole r).BasicAuth = b.BasicAuth ∧
      b.DefaultUserRole u0 = b.role :=
  ⟨rfl, rfl, rfl, rfl⟩

/-- C8: any two failing calls of `Authenticate` on one backend return the
same pair, the empty token with `WrongCredentials`. -/
theorem Authenticate_failures_identical (compare : GoString → GoString → Bool)
    (b : BasicAuthenticationBackend) (u1 p1 u2 p2 : GoString)
    (h1 : (b.Authenticate compare u1 p1).2 ≠ none)
    (h2 : (b.Authenticate compare u2 p2).2 ≠ none) :
    b.Authenticate compare u1 p1 = b.Authenticate compare u2 p2 ∧
      b.Authenticate compare u1 p1 = ([], some Error.ErrWrongCredentials) := by
  rcases Authenticate_cases compare b u1 p1 with ⟨_, e1⟩ | ⟨_, e1⟩
  · rcases Authenticate_cases compare b u2 p2 with ⟨_, e2⟩ | ⟨_, e2⟩
    · exact ⟨e1.trans e2.symm, e1⟩
    · rw [e2] at h2
      exact absurd rfl h2
  · rw [e1] at h1
    exact absurd rfl h1

/-- C8 on the scenario of the specification: the absent `bob` and `alice`
with a wrong password fail alike. -/
theorem Authenticate_failures_identical_witness :
    aliceBackend.Authenticate plainCompare (str "bob") (str "anything")
        = aliceBackend.Authenticate plainCompare (str "alice") (str "wrong") ∧
      aliceBackend.Authenticate plainCompare (str "bob") (str "anything")
        = ([], some Error.ErrWrongCredentials) :=
  Authenticate_failures_identical plainCompare aliceBackend (str "bob") (str "anything")
    (str "alice") (str "wrong") (by decide) (by decide)

/-- C9: when the extraction answers the token of the pair `(u, p)`, the
handler returned by `Wrap` calls the wrapped handler exactly if
`Authenticate u p` has no error, and the user name it hands over is what the
validation check answers for that token, on the request as on the synthetic
request of `Authenticate`. -/
theorem Wrap_agrees_with_Authenticate (compare : GoString → GoString → Bool)
    (b : BasicAuthenticationBackend)
    (ext : BasicAuthenticationBackend → Request → GoString × Option Error)
    (r : Request) (u p : GoString)
    (hext : ext b r = (EncodeToString (u ++ str ":" ++ p), none)) :
    ((b.Wrap compare ext r).1.any Call.isWrapped = true
        ↔ (b.Authenticate compare u p).2 = none) ∧
      ∀ q name, Call.wrapped q name ∈ (b.Wrap compare ext r).1 →
        q = r.setAuthorization (EncodeToString (u ++ str ":" ++ p)) ∧
        name = b.BasicAuth.CheckAuth compare q ∧
        name = b.BasicAuth.CheckAuth compare
          (syntheticRequest (EncodeToString (u ++ str ":" ++ p))) := by
  have hc := CheckAuth_setAuthorization compare b.BasicAuth r
    (EncodeToString (u ++ str ":" ++ p))
  have hA := Authenticate_cases compare b u p
  generalize EncodeToString (u ++ str ":" ++ p) = token at hext hc hA ⊢
  unfold BasicAuthenticationBackend.Wrap
  rw [hext]
  rcases hA with ⟨hk, ha⟩ | ⟨hk, ha⟩
  · rw [ha]
    simp only [hc, hk, if_true]
    simp [Call.isWrapped]
  · rw [ha]
    simp only [hc, hk, if_false]
    simp [Call.isWrapped, hc]

/-- C9 on the scenario of the specification: with the token of
`alice:wonderland` both `Wrap` and `Authenticate` accept, and the wrapped
handler is called for `alice`. -/
theorem Wrap_agrees_with_Authenticate_witness :
    ((aliceBackend.Wrap plainCompare (tokenExtractor (str "YWxpY2U6d29uZGVybGFuZA=="))
          (cookieRequest "GET")).1.any Call.isWrapped = true
        ↔ (aliceBackend.Authenticate plainCompare (str "alice") (str "wonderland")).2 = none) ∧
      (aliceBackend.Wrap plainCompare (tokenExtractor (str "YWxpY2U6d29uZGVybGFuZA=="))
          (cookieRequest "GET")).1.any Call.isWrapped = true ∧
      aliceBackend.BasicAuth.CheckAuth plainCompare
          (syntheticRequest (str "YWxpY2U6d29uZGVybGFuZA==")) = str "alice" :=
  ⟨(Wrap_agrees_with_Authenticate plainCompare aliceBackend
      (tokenExtractor (str "YWxpY2U6d29uZGVybGFuZA==")) (cookieRequest "GET")
      (str "alice") (str "wonderland") (by decide)).1, by decide, by decide⟩

/-- C10: when the extraction fails the handler leaves the request as it was;
when it succeeds with the token `t` the request at the end has the single
`Authorization` value `Basic t`, every other header and the other fields keep
their value, and the validation check and the call that follows it, the
wrapped handler or the unauthorized responder, are made on that request. -/
theorem Wrap_request_frame (compare : GoString → GoString → Bool)
    (b : BasicAuthenticationBackend)
    (ext : BasicAuthenticationBackend → Request → GoString × Option Error) (r : Request) :
    ((ext b r).2 ≠ none → (b.Wrap compare ext r).2 = r) ∧
      ((ext b r).2 = none →
        (b.Wrap compare ext r).2.Header (str "Authorization")
            = [str "Basic " ++ (ext b r).1] ∧
          (∀ k, k ≠ str "Authorization" →
            (b.Wrap compare ext r).2.Header k = r.Header k) ∧
          (b.Wrap compare ext r).2.Method = r.Method ∧
          (b.Wrap compare ext r).2.URL = r.URL ∧
          Call.CheckAuth (b.Wrap compare ext r).2 ∈ (b.Wrap compare ext r).1 ∧
          (∀ q, Call.CheckAuth q ∈ (b.Wrap compare ext r).1 → q = (b.Wrap compare ext r).2) ∧
          (∀ q, Call.Unauthorized q ∈ (b.Wrap compare ext r).1 →
            q = (b.Wrap compare ext r).2) ∧
          (∀ q name, Call.wrapped q name ∈ (b.Wrap compare ext r).1 →
            q = (b.Wrap compare ext r).2)) := by
  unfold BasicAuthenticationBackend.Wrap
  rcases hx : ext b r with ⟨token, err⟩
  cases err with
  | some e => simp
  | none =>
    by_cases hu : b.BasicAuth.CheckAuth compare (r.setAuthorization token) = []
    · simp only [hu, if_true]
      refine ⟨fun h => absurd rfl h, fun _ => ⟨?_, ?_, rfl, rfl, ?_, ?_, ?_, ?_⟩⟩
      · simp [Request.setAuthorization, Header.Set]
      · intro k hk
        simp [Request.setAuthorization, Header.Set, hk]
      · simp
      · intro q hq
        simpa using hq
      · intro q hq
        simpa using hq
      · intro q name hq
        simp at hq
    · simp only [hu, if_false]
      refine ⟨fun h => absurd rfl h, fun _ => ⟨?_, ?_, rfl, rfl, ?_, ?_, ?_, ?_⟩⟩
      · simp [Request.setAuthorization, Header.Set]
      · intro k hk
        simp [Request.setAuthorization, Header.Set, hk]
      · simp
      · intro q hq
        simpa using hq
      · intro q hq
        simp at hq
      · intro q name hq
        simp at hq
        exact hq.1

/-- C10 on three runs on a request that carries a `Cookie` header: a failed
extraction leaves the request untouched; an accepted and a rejected token
set `Authorization` and keep the `Cookie` header. -/
theorem Wrap_request_frame_witness :
    (aliceBackend.Wrap plainCompare failingExtractor (cookieRequest "GET")).2
        = cookieRequest "GET" ∧
      ((aliceBackend.Wrap plainCompare (tokenExtractor (str "YWxpY2U6d29uZGVybGFuZA=="))
            (cookieRequest "GET")).2.Header (str "Authorization")
          = [str "Basic YWxpY2U6d29uZGVybGFuZA=="] ∧
        (aliceBackend.Wrap plainCompare (tokenExtractor (str "YWxpY2U6d29uZGVybGFuZA=="))
            (cookieRequest "GET")).2.Header (str "Cookie")
          = [str "authtok=x"]) ∧
      ((aliceBackend.Wrap plainCompare (tokenExtractor (str "garbled"))
            (cookieRequest "POST")).2.Header (str "Authorization")
          = [str "Basic garbled"] ∧
        (aliceBackend.Wrap plainCompare (tokenExtractor (str "garbled"))
            (cookieRequest "POST")).2.Header (str "Cookie")
          = [str "authtok=x"]) :=
  ⟨(Wrap_request_frame plainCompare aliceBackend failingExtractor (cookieRequest "GET")).1
      (by decide),
    ⟨((Wrap_request_frame plainCompare aliceBackend
        (tokenExtractor (str "YWxpY2U6d29uZGVybGFuZA==")) (cookieRequest "GET")).2
        (by decide)).1.trans (by decide),
      (((Wrap_request_frame plainCompare aliceBackend
        (tokenExtractor (str "YWxpY2U6d29uZGVybGFuZA==")) (cookieRequest "GET")).2
        (by decide)).2.1 (str "Cookie") (by decide)).trans (by decide)⟩,
    ⟨((Wrap_request_frame plainCompare aliceBackend (tokenExtractor (str "garbled"))
        (cookieRequest "POST")).2 (by decide)).1.trans (by decide),
      (((Wrap_request_frame plainCompare aliceBackend (tokenExtractor (str "garbled"))
        (cookieRequest "POST")).2 (by decide)).2.1 (str "Cookie") (by decide)).trans
        (by decide)⟩⟩

end Skydive
